import Mathlib

/-!  Shallow embedding of `discordapi/client.py`: the REST dispatch loop
(`send_request` / `_send_request`), URL construction (`construct_url`),
presence updates (`update_presence`) and the client constructor
(`DiscordClient.__init__`), together with the Rate-Limit Governor interface
the dispatcher calls into.  The transport is modelled as an oracle: the
list of round-trips the network will answer with, consumed one per attempt.
Parts of the repository that are referenced but whose files are not in the
sources at hand (`ratelimit.py`, `gateway.py`, `util.py`, `const.py`) are
modelled from the specification and marked as such in their doc comments.  -/

/-- Primitive JSON values: the value positions the dispatcher ever reads. -/
inductive JPrim
  | null
  | bool (b : Bool)
  | num (n : Int)
  | str (s : String)
deriving DecidableEq, Repr

/-- Decoded JSON bodies, modelled to the depth `send_request` inspects: the
code only subscripts top-level keys of a decoded body and otherwise passes
it through unchanged, so object fields and array elements are primitives
here.  Numbers are modelled as integers; the code only ever adds a body's
`retry_after` to the current time and never inspects a number otherwise. -/
inductive JValue
  | null
  | bool (b : Bool)
  | num (n : Int)
  | str (s : String)
  | arr (elems : List JPrim)
  | obj (fields : List (String × JPrim))
deriving DecidableEq, Repr

/-- Python exceptions that can escape the subscripting and arithmetic in
`send_request` (`resdata[...]`, `time.time() + resdata[...]`). -/
inductive PyExc
  | typeError
  | keyError (key : String)
deriving DecidableEq, Repr

/-- Key lookup in an association list (Python dict read `d.get(k)` / `d[k]`
resolution on the modelled dicts). -/
def lookupKey {α : Type} (l : List (String × α)) (k : String) : Option α :=
  match l.find? (fun p => p.1 == k) with
  | some p => some p.2
  | none => none

/-- Python `resdata[key]` on the decoded body: `None` is not subscriptable
(`TypeError`), a dict raises `KeyError` for a missing key, and subscripting
any other value with a string key is a `TypeError`. -/
def pySubscript (resdata : Option JValue) (key : String) : Except PyExc JPrim :=
  match resdata with
  | none => Except.error PyExc.typeError
  | some (JValue.obj fields) =>
    match lookupKey fields key with
    | some v => Except.ok v
    | none => Except.error (PyExc.keyError key)
  | some _ => Except.error PyExc.typeError

/-- Python `time.time() + v`: numbers add, booleans coerce to 0 or 1,
anything else is a `TypeError`. -/
def pyAddTime (now : Int) : JPrim → Except PyExc Int
  | JPrim.num n => Except.ok (now + n)
  | JPrim.bool b => Except.ok (now + if b then 1 else 0)
  | _ => Except.error PyExc.typeError

/-- Python truthiness of the primitive values that can appear in a body
field (used by `if resdata["global"]`). -/
def JPrim.truthy : JPrim → Bool
  | JPrim.null => false
  | JPrim.bool b => b
  | JPrim.num n => n != 0
  | JPrim.str s => s != ""

/-- One key update of a Python dict modelled as an association list:
overwrite in place when the key exists, append otherwise. -/
def setKey {α : Type} (l : List (String × α)) (k : String) (v : α) :
    List (String × α) :=
  if l.any (fun p => p.1 == k) then
    l.map (fun p => if p.1 == k then (k, v) else p)
  else
    l ++ [(k, v)]

/-- Python `d1.update(d2)`: fold the updates over the base dict. -/
def updateDict {α : Type} (l upd : List (String × α)) : List (String × α) :=
  upd.foldl (fun acc p => setKey acc p.1 p.2) l

/-- Modelled from the spec: the REST base URL constant `API_URL` lives in
`discordapi/const.py`, which is not among the sources; §6 specifies only
"base URL + route path".  The concrete value is irrelevant to every
theorem below, all of which are parametric in the route. -/
def API_URL : String := "https://discord.com/api/v9/"

/-- Modelled from the spec: library name constant from `const.py`. -/
def LIB_NAME : String := "discordapi"

/-- Modelled from the spec: library version constant from `const.py`. -/
def LIB_VER : String := "0.0"

/-- Modelled from the spec: library URL constant from `const.py`. -/
def LIB_URL : String := "https://github.invalid/discordapi"

/-- Model of Python's `urllib.parse.urljoin`, restricted to the inputs
`construct_url` produces here: a base URL and a scheme-less relative path
(`construct_url` has already stripped a single leading slash).  The last
path segment of the base is replaced by the reference. -/
def urljoin (base url : String) : String :=
  if url == "" then base
  else
    match (base.splitOn "/").dropLast with
    | [] => url
    | ps => String.intercalate "/" ps ++ "/" ++ url

/-- Embedding of `construct_url` (client.py lines 44-48): strip one leading
slash from the endpoint, then join it onto the base URL. -/
def construct_url (baseurl endpoint : String) : String :=
  let endpoint := if endpoint.startsWith "/" then endpoint.drop 1 else endpoint
  urljoin baseurl endpoint

/-- Modelled from the spec: the Rate-Limit Governor state
(`discordapi/ratelimit.py` is not among the sources).  Per §3 and §4.2 it
holds a route-to-bucket map and per-key reset times, keyed by buckets, raw
routes, or the reserved key "global". -/
structure RateLimitHandler where
  bucketMap : List (String × String)
  limits : List (String × Int)
deriving DecidableEq, Repr

/-- Modelled from the spec: `isKnownRoute` membership test (§4.2), the
method client.py calls as `is_in_bucket_map`. -/
def RateLimitHandler.is_in_bucket_map (h : RateLimitHandler) (route : String) :
    Bool :=
  h.bucketMap.any (fun p => p.1 == route)

/-- Modelled from the spec: `setLimit(route_or_global, reset_at)` (§4.2). -/
def RateLimitHandler.set_limit (h : RateLimitHandler) (key : String)
    (reset : Int) : RateLimitHandler :=
  { h with limits := setKey h.limits key reset }

/-- Modelled from the spec: `registerBucket(route, bucket_id)` (§4.2). -/
def RateLimitHandler.register_bucket (h : RateLimitHandler)
    (route bucket : String) : RateLimitHandler :=
  { h with bucketMap := setKey h.bucketMap route bucket }

/-- Client state: the mutable attributes of `DiscordClient` that the
dispatch and presence code reads and writes (client.py lines 63-72). -/
structure ClientState where
  headers : List (String × String)
  _activities : List JValue
  ratelimit_handler : RateLimitHandler
deriving DecidableEq, Repr

/-- Embedding of `DiscordClient.__init__` (lines 63-72): the default
header dict, empty stored activities, a fresh rate-limit handler. -/
def DiscordClient.init (token : String) : ClientState :=
  { headers := [
      ("User-Agent", LIB_NAME ++ " (" ++ LIB_URL ++ ", " ++ LIB_VER ++ ")"),
      ("Authorization", "Bot " ++ token),
      ("Content-Type", "application/json")],
    _activities := [],
    ratelimit_handler := { bucketMap := [], limits := [] } }

/-- The outgoing HTTP request handed to the transport
(`urllib.request.Request`). -/
structure Request where
  method : String
  url : String
  data : Option JValue
  headers : List (String × String)
deriving DecidableEq, Repr

/-- An HTTP response as `send_request` reads it: status code, decoded body
(`none` models an empty raw body, decoded to Python `None`), and the
response headers. -/
structure Response where
  status : Nat
  body : Option JValue
  headers : List (String × String)
deriving DecidableEq, Repr

/-- One transport round-trip: the response, whether `urlopen` raised
`HTTPError` (the `exc` flag `_send_request` returns), and the value
`time.time()` yields while this response is processed. -/
structure Attempt where
  resp : Response
  exc : Bool
  now : Int
deriving DecidableEq, Repr

/-- Observable calls `send_request` makes, in the order it makes them:
a governor `check`, handing a request to the transport, a governor
`set_limit`, a governor `register_bucket`. -/
inductive Event
  | check (route : String)
  | httpCall (req : Request)
  | setLimit (key : String) (reset : Int)
  | registerBucket (route bucket : String)
deriving DecidableEq, Repr

/-- The header merge `_send_request` performs on the client state:
`req_headers = self.headers` aliases the client's own dict, and
`req_headers.update(headers)` therefore mutates `self.headers` in place
whenever a headers argument is given (lines 316-318). -/
def mergeHeaders (headers : Option (List (String × String)))
    (st : ClientState) : ClientState :=
  match headers with
  | none => st
  | some h => { st with headers := updateDict st.headers h }

/-- Embedding of `_send_request` (lines 283-329) up to the transport call:
the URL is built from the constant `API_URL` — the `baseurl` parameter is
accepted but never read (line 309) — and caller headers are merged into
`self.headers` in place.  The transport round-trip itself is supplied by
the oracle in `send_request`. -/
def _send_request (st : ClientState) (method route : String)
    (data : Option JValue) (baseurl : String)
    (headers : Option (List (String × String))) : ClientState × Request :=
  let url := construct_url API_URL route
  let st' := mergeHeaders headers st
  (st', { method := method, url := url, data := data, headers := st'.headers })

/-- Result of a call to `send_request`: a normally returned decoded body, a
raised `DiscordHTTPError` (carrying the body's code, its message and the
raw response — `exceptions.py` is not among the sources, so the error is
modelled from the spec's "structured HTTP error" in §4.3), an escaped
Python exception, or `pending` when the oracle holds no further response:
the call is still blocked inside the transport or another retry. -/
inductive ReqOutcome
  | ok (resdata : Option JValue)
  | httpError (code message : JPrim) (res : Response)
  | pyExc (e : PyExc)
  | pending
deriving DecidableEq, Repr

/-- Embedding of the 429 branch body (lines 262-265).  Python evaluates
`time.time() + resdata["retry_after"]` first, then `resdata["global"]`;
the limit key is "global" when the body's global flag is truthy and the
raw route otherwise.  Returns the state updated by `set_limit` together
with the `set_limit` arguments, or the Python exception that escapes. -/
def process429 (st : ClientState) (route : String) (a : Attempt) :
    Except PyExc (ClientState × String × Int) :=
  match pySubscript a.resp.body "retry_after" with
  | Except.error e => Except.error e
  | Except.ok ra =>
    match pyAddTime a.now ra with
    | Except.error e => Except.error e
    | Except.ok limit =>
      match pySubscript a.resp.body "global" with
      | Except.error e => Except.error e
      | Except.ok g =>
        let key := if g.truthy then "global" else route
        Except.ok
          ({ st with
             ratelimit_handler := st.ratelimit_handler.set_limit key limit },
           key, limit)

/-- Embedding of the bucket-registration step (lines 270-273): on a
response carrying an `X-RateLimit-Bucket` header, register the route only
when it is not already in the bucket map. -/
def registerStep (st : ClientState) (route : String) (res : Response) :
    ClientState × List Event :=
  match lookupKey res.headers "X-RateLimit-Bucket" with
  | none => (st, [])
  | some bucket =>
    if st.ratelimit_handler.is_in_bucket_map route then (st, [])
    else
      ({ st with
         ratelimit_handler :=
           st.ratelimit_handler.register_bucket route bucket },
       [Event.registerBucket route bucket])

/-- The error condition of lines 275-276: an `expected_code` was given and
the status differs, or the transport itself failed. -/
def errCond (expected_code : Option Nat) (exc : Bool) (res : Response) :
    Bool :=
  (match expected_code with
   | some c => res.status != c
   | none => false) || exc

/-- Embedding of lines 275-281: under `raise_at_exc`, the error condition
raises `DiscordHTTPError(resdata["code"], resdata["message"], res)` —
subscripting the decoded body, which escapes as a Python `TypeError` when
the body was empty; otherwise the decoded body is returned (Python `None`
for an empty body). -/
def finishOutcome (expected_code : Option Nat) (raise_at_exc : Bool)
    (exc : Bool) (res : Response) : ReqOutcome :=
  if raise_at_exc && errCond expected_code exc res then
    match pySubscript res.body "code" with
    | Except.error e => ReqOutcome.pyExc e
    | Except.ok c =>
      match pySubscript res.body "message" with
      | Except.error e => ReqOutcome.pyExc e
      | Except.ok m => ReqOutcome.httpError c m res
  else
    ReqOutcome.ok res.body

/-- Embedding of `send_request` (lines 205-281).  The transport oracle is
the list of round-trips the network will answer with; each attempt
(including each transparent 429 retry, which is a tail-recursive call with
identical arguments) consumes one.  Returns the outcome, the final client
state, and the ordered trace of observable calls.  With an exhausted
oracle the outcome is `pending`: the code is still waiting inside
`urlopen` for that attempt's response.  Python defaults a `None` baseurl
to `API_URL` (lines 242-243) and then threads it through; the parameter
is dead either way. -/
def send_request (method route : String) (data : Option JValue)
    (expected_code : Option Nat) (raise_at_exc : Bool) :
    Option String → Option (List (String × String)) → ClientState →
      List Attempt → ReqOutcome × ClientState × List Event
  | baseurl, headers, st, [] =>
    let p := _send_request st method route data (baseurl.getD API_URL) headers
    (ReqOutcome.pending, p.1, [Event.check route, Event.httpCall p.2])
  | baseurl, headers, st, a :: rest =>
    let baseurl1 := baseurl.getD API_URL
    let p := _send_request st method route data baseurl1 headers
    let pre : List Event := [Event.check route, Event.httpCall p.2]
    if a.resp.status == 429 then
      match process429 p.1 route a with
      | Except.error e => (ReqOutcome.pyExc e, p.1, pre)
      | Except.ok (st2, key, limit) =>
        let r := send_request method route data expected_code raise_at_exc
                   (some baseurl1) headers st2 rest
        (r.1, r.2.1, pre ++ Event.setLimit key limit :: r.2.2)
    else
      let q := registerStep p.1 route a.resp
      (finishOutcome expected_code raise_at_exc a.exc a.resp, q.1, pre ++ q.2)

/-- Value of an `activities` argument to `update_presence`: Python accepts
a list, a tuple, or a single activity object (lines 122-127). -/
inductive ActArg
  | list (l : List JValue)
  | tuple (l : List JValue)
  | single (v : JValue)
deriving DecidableEq, Repr

/-- Field values of a gateway payload's `d` dict: the EMPTY absence
sentinel from `discordapi/util.py`, Python `None`, ordinary scalars, or
the stored activities tuple. -/
inductive DVal
  | empty
  | pyNone
  | bool (b : Bool)
  | num (n : Int)
  | str (s : String)
  | acts (l : List JValue)
deriving DecidableEq, Repr

/-- Gateway payload envelope as far as the presence claims inspect it:
the opcode and the `d` dict. -/
structure Payload where
  op : Nat
  d : List (String × DVal)
deriving DecidableEq, Repr

/-- Opcode Presence Update (spec §6). -/
def PRESENCE_UPDATE : Nat := 3

/-- Modelled from the spec: `_get_payload` lives in `discordapi/gateway.py`,
which is not among the sources; §4.1's `buildPayload` assembles the
envelope from the opcode and the named fields. -/
def _get_payload (op : Nat) (d : List (String × DVal)) : Payload :=
  { op := op, d := d }

/-- Modelled from the spec: `clear_postdata` lives in `discordapi/util.py`,
which is not among the sources; per §4.1 the payload builder omits fields
marked absent, i.e. it drops entries holding the EMPTY sentinel. -/
def clear_postdata (d : List (String × DVal)) : List (String × DVal) :=
  d.filter (fun p =>
    match p.2 with
    | DVal.empty => false
    | _ => true)

/-- Embedding of `update_presence` (lines 102-138): a `None` `since`
becomes `time.time() * 1000`; a non-`None` activities argument is
normalized to a tuple (lists are converted, a single object is wrapped)
and stored into `_activities`; the payload always carries the stored
`_activities`.  Returns the updated client state and the payload handed to
`send` (the gateway transmission itself lives in `gateway.py`). -/
def update_presence (st : ClientState) (activities : Option ActArg)
    (status : Option String) (afk : Bool) (since : Option Int) (now : Int) :
    ClientState × Payload :=
  let since := match since with | none => now * 1000 | some s => s
  let st :=
    match activities with
    | none => st
    | some arg =>
      let acts :=
        match arg with
        | ActArg.list l => l
        | ActArg.tuple l => l
        | ActArg.single v => [v]
      { st with _activities := acts }
  let data := _get_payload PRESENCE_UPDATE
    [("activities", DVal.acts st._activities),
     ("status", match status with | none => DVal.pyNone | some s => DVal.str s),
     ("afk", DVal.bool afk),
     ("since", DVal.num since)]
  (st, { data with d := clear_postdata data.d })

/-- State transformation of one throttled (429) attempt: the in-place
header merge `_send_request` performs, then the governor `set_limit`
update of the 429 branch. -/
def throttleStep (route : String)
    (headers : Option (List (String × String))) (st : ClientState)
    (a : Attempt) : ClientState :=
  match process429 (mergeHeaders headers st) route a with
  | Except.ok (st2, _, _) => st2
  | Except.error _ => mergeHeaders headers st

/-- The `set_limit` key the 429 branch computes: "global" when the body's
global flag is truthy, the raw route otherwise (line 264). -/
def throttleKey (route : String) (a : Attempt) : String :=
  match pySubscript a.resp.body "global" with
  | Except.ok g => if g.truthy then "global" else route
  | Except.error _ => route

/-- The `set_limit` reset time the 429 branch computes:
`time.time() + retry_after` (line 263). -/
def throttleLimit (a : Attempt) : Int :=
  match pySubscript a.resp.body "retry_after" with
  | Except.ok (JPrim.num n) => a.now + n
  | _ => a.now

/-- A throttle round-trip whose body has the §6 shape: status 429 and a
decoded JSON object carrying a numeric `retry_after` and a `global`
field. -/
def wellFormed429 (a : Attempt) : Bool :=
  a.resp.status == 429 &&
  match a.resp.body with
  | some (JValue.obj fields) =>
    (match lookupKey fields "retry_after" with
     | some (JPrim.num _) => true
     | _ => false) &&
    (lookupKey fields "global").isSome
  | _ => false

/-- Predicate: the event is a governor check or a transport hand-off. -/
def Event.isGate : Event → Bool
  | Event.check _ => true
  | Event.httpCall _ => true
  | _ => false

/-- Predicate: the event is a transport hand-off. -/
def Event.isHttpCall : Event → Bool
  | Event.httpCall _ => true
  | _ => false

/-- Predicate: the event is a `register_bucket` call. -/
def Event.isRegisterBucket : Event → Bool
  | Event.registerBucket _ _ => true
  | _ => false

/-- Check-then-call discipline: restricted to gate events, the trace is a
sequence of pairs, each a `check` of the route immediately followed by one
transport hand-off. -/
def gatedPairs (route : String) : List Event → Bool
  | [] => true
  | Event.check r :: Event.httpCall _ :: rest => r == route && gatedPairs route rest
  | _ => false

/-- Number of requests handed to the transport in a trace. -/
def countHttpCalls (tr : List Event) : Nat :=
  (tr.filter Event.isHttpCall).length

/-- A transport round-trip that throttles: a 429 whose body has the §6
shape, `retry_after` 1 and `global` false. -/
def throttle429 : Attempt :=
  { resp := { status := 429,
              body := some (JValue.obj
                [("retry_after", JPrim.num 1), ("global", JPrim.bool false)]),
              headers := [] },
    exc := false, now := 100 }

/-- A successful 200 round-trip with a small JSON object body. -/
def ok200 : Attempt :=
  { resp := { status := 200,
              body := some (JValue.obj
                [("id", JPrim.str "123"), ("username", JPrim.str "x")]),
              headers := [] },
    exc := false, now := 101 }

/-- A failed round-trip whose response body is empty: `urlopen` raised
`HTTPError` with status 500 and the server sent no body. -/
def emptyBody500 : Attempt :=
  { resp := { status := 500, body := none, headers := [] },
    exc := true, now := 102 }

/-- A failed round-trip carrying a structured error body. -/
def structuredError500 : Attempt :=
  { resp := { status := 500,
              body := some (JValue.obj
                [("code", JPrim.num 50035),
                 ("message", JPrim.str "invalid body")]),
              headers := [] },
    exc := true, now := 103 }

/-- A 204 round-trip with an empty body and no transport failure, for a
caller that expected status 200. -/
def emptyBody204 : Attempt :=
  { resp := { status := 204, body := none, headers := [] },
    exc := false, now := 104 }

/-- A 429 round-trip declaring a global cooldown of 2 seconds. -/
def globalThrottle429 : Attempt :=
  { resp := { status := 429,
              body := some (JValue.obj
                [("retry_after", JPrim.num 2), ("global", JPrim.bool true)]),
              headers := [] },
    exc := false, now := 200 }

/-- A 429 round-trip that carries an `X-RateLimit-Bucket` header. -/
def throttleWithBucket429 : Attempt :=
  { resp := { status := 429,
              body := some (JValue.obj
                [("retry_after", JPrim.num 2), ("global", JPrim.bool false)]),
              headers := [("X-RateLimit-Bucket", "abcd1234")] },
    exc := false, now := 300 }

/-- A 200 round-trip with neither a body nor headers. -/
def bare200 : Attempt :=
  { resp := { status := 200, body := none, headers := [] },
    exc := false, now := 301 }

/-- A 200 response carrying an `X-RateLimit-Bucket` header. -/
def bucketResponse200 : Response :=
  { status := 200, body := none,
    headers := [("X-RateLimit-Bucket", "bkt42")] }

theorem _send_request_fst (st : ClientState) (m r : String) (d : Option JValue)
    (b : String) (hd : Option (List (String × String))) :
    (_send_request st m r d b hd).1 = mergeHeaders hd st := rfl

theorem _send_request_req (st : ClientState) (m r : String) (d : Option JValue)
    (b : String) (hd : Option (List (String × String))) :
    (_send_request st m r d b hd).2
      = { method := m, url := construct_url API_URL r, data := d,
          headers := (mergeHeaders hd st).headers } := rfl

theorem send_request_nil (m r : String) (d : Option JValue) (ec : Option Nat)
    (rae : Bool) (bu : Option String) (hd : Option (List (String × String)))
    (st : ClientState) :
    send_request m r d ec rae bu hd st []
      = (ReqOutcome.pending, mergeHeaders hd st,
         [Event.check r,
          Event.httpCall (_send_request st m r d (bu.getD API_URL) hd).2]) := rfl

theorem send_request_cons_429 (m r : String) (d : Option JValue)
    (ec : Option Nat) (rae : Bool) (bu : Option String)
    (hd : Option (List (String × String))) (st : ClientState) (a : Attempt)
    (rest : List Attempt) (st2 : ClientState) (key : String) (limit : Int)
    (hs : a.resp.status = 429)
    (hp : process429 (mergeHeaders hd st) r a = Except.ok (st2, key, limit)) :
    send_request m r d ec rae bu hd st (a :: rest)
      = ((send_request m r d ec rae (some (bu.getD API_URL)) hd st2 rest).1,
         (send_request m r d ec rae (some (bu.getD API_URL)) hd st2 rest).2.1,
         Event.check r
           :: Event.httpCall (_send_request st m r d (bu.getD API_URL) hd).2
           :: Event.setLimit key limit
           :: (send_request m r d ec rae (some (bu.getD API_URL)) hd st2 rest).2.2) := by
  simp [send_request, hs, _send_request_fst, hp]

theorem send_request_cons_429err (m r : String) (d : Option JValue)
    (ec : Option Nat) (rae : Bool) (bu : Option String)
    (hd : Option (List (String × String))) (st : ClientState) (a : Attempt)
    (rest : List Attempt) (e : PyExc) (hs : a.resp.status = 429)
    (hp : process429 (mergeHeaders hd st) r a = Except.error e) :
    send_request m r d ec rae bu hd st (a :: rest)
      = (ReqOutcome.pyExc e, mergeHeaders hd st,
         [Event.check r,
          Event.httpCall (_send_request st m r d (bu.getD API_URL) hd).2]) := by
  simp [send_request, hs, _send_request_fst, hp]

theorem send_request_cons_not429 (m r : String) (d : Option JValue)
    (ec : Option Nat) (rae : Bool) (bu : Option String)
    (hd : Option (List (String × String))) (st : ClientState) (a : Attempt)
    (rest : List Attempt) (hs : (a.resp.status == 429) = false) :
    send_request m r d ec rae bu hd st (a :: rest)
      = (finishOutcome ec rae a.exc a.resp,
         (registerStep (mergeHeaders hd st) r a.resp).1,
         Event.check r
           :: Event.httpCall (_send_request st m r d (bu.getD API_URL) hd).2
           :: (registerStep (mergeHeaders hd st) r a.resp).2) := by
  simp [send_request, hs, _send_request_fst]

theorem send_request_baseurl_eq (m r : String) (d : Option JValue)
    (ec : Option Nat) (rae : Bool) (hd : Option (List (String × String))) :
    ∀ (oracle : List Attempt) (bu bu' : Option String) (st : ClientState),
      send_request m r d ec rae bu hd st oracle
        = send_request m r d ec rae bu' hd st oracle := by
  intro oracle
  induction oracle with
  | nil => intro bu bu' st; rfl
  | cons a rest ih =>
    intro bu bu' st
    by_cases hs : (a.resp.status == 429) = true
    · have hs' : a.resp.status = 429 := by simpa using hs
      cases hp : process429 (mergeHeaders hd st) r a with
      | error e =>
        rw [send_request_cons_429err m r d ec rae bu hd st a rest e hs' hp,
            send_request_cons_429err m r d ec rae bu' hd st a rest e hs' hp]
        rfl
      | ok v =>
        obtain ⟨st2, key, limit⟩ := v
        rw [send_request_cons_429 m r d ec rae bu hd st a rest st2 key limit hs' hp,
            send_request_cons_429 m r d ec rae bu' hd st a rest st2 key limit hs' hp,
            ih (some (bu.getD API_URL)) (some (bu'.getD API_URL)) st2]
        rfl
    · have hs' : (a.resp.status == 429) = false := by simpa using hs
      rw [send_request_cons_not429 m r d ec rae bu hd st a rest hs',
          send_request_cons_not429 m r d ec rae bu' hd st a rest hs']
      rfl

/-- Claim C10: for every call to `send_request`, the request URL is built
by joining the constant `API_URL` with the route (a leading slash on the
route is stripped by `construct_url`); the `baseurl` parameter accepted by
`send_request` and `_send_request` is never read, so passing a different
`baseurl` never changes the target URL — nor anything else about the
call. -/
theorem c10_baseurl_ignored (st : ClientState) (m r : String)
    (d : Option JValue) (b b' : String) (bu bu' : Option String)
    (hd : Option (List (String × String))) (ec : Option Nat) (rae : Bool)
    (oracle : List Attempt) :
    (_send_request st m r d b hd).2.url = construct_url API_URL r
    ∧ _send_request st m r d b hd = _send_request st m r d b' hd
    ∧ send_request m r d ec rae bu hd st oracle
        = send_request m r d ec rae bu' hd st oracle :=
  ⟨rfl, rfl, send_request_baseurl_eq m r d ec rae hd oracle bu bu' st⟩

/-- Claim C8: a non-`None` headers argument is merged by updating the
client's own `self.headers` dict in place (`req_headers = self.headers`
aliases it), so the caller's overrides persist in the client state and are
carried by every subsequent request of that client — here, by a later
`_send_request` called with no headers argument. -/
theorem c8_header_merge_persists (st : ClientState) (m r : String)
    (d : Option JValue) (b : String) (h : List (String × String))
    (m2 r2 : String) (d2 : Option JValue) (b2 : String) :
    ((_send_request st m r d b (some h)).1).headers = updateDict st.headers h
    ∧ ((_send_request st m r d b (some h)).2).headers = updateDict st.headers h
    ∧ ((_send_request (_send_request st m r d b (some h)).1 m2 r2 d2 b2
          none).2).headers = updateDict st.headers h :=
  ⟨rfl, rfl, rfl⟩

/-- Claim C3: `update_presence` called with no activities argument leaves
`_activities` unchanged and the outgoing payload carries exactly the
previously stored activities; called with an empty list or an empty tuple,
it stores the empty tuple and the payload carries an empty activities
list. -/
theorem c3_presence_activities (st : ClientState) (status : Option String)
    (afk : Bool) (since : Option Int) (now : Int) :
    (update_presence st none status afk since now).1 = st
    ∧ lookupKey (update_presence st none status afk since now).2.d "activities"
        = some (DVal.acts st._activities)
    ∧ (update_presence st (some (ActArg.list [])) status afk since now).1._activities
        = []
    ∧ lookupKey (update_presence st (some (ActArg.list [])) status afk since
          now).2.d "activities" = some (DVal.acts [])
    ∧ (update_presence st (some (ActArg.tuple [])) status afk since now).1._activities
        = []
    ∧ lookupKey (update_presence st (some (ActArg.tuple [])) status afk since
          now).2.d "activities" = some (DVal.acts []) := by
  refine ⟨rfl, ?_, rfl, ?_, rfl, ?_⟩ <;>
    simp [update_presence, _get_payload, clear_postdata, lookupKey]

theorem wf429_spec (a : Attempt) (hwf : wellFormed429 a = true) :
    a.resp.status = 429
    ∧ ∃ fields n g, a.resp.body = some (JValue.obj fields)
        ∧ lookupKey fields "retry_after" = some (JPrim.num n)
        ∧ lookupKey fields "global" = some g := by
  unfold wellFormed429 at hwf
  rw [Bool.and_eq_true] at hwf
  obtain ⟨hs, hbody⟩ := hwf
  refine ⟨by simpa using hs, ?_⟩
  rcases hb : a.resp.body with _ | j <;> rw [hb] at hbody
  · simp at hbody
  · cases j with
    | obj fields =>
      rw [Bool.and_eq_true] at hbody
      obtain ⟨hra, hg⟩ := hbody
      refine ⟨fields, ?_⟩
      rcases hv : lookupKey fields "retry_after" with _ | v <;> rw [hv] at hra
      · simp at hra
      · cases v with
        | num n =>
          rw [Option.isSome_iff_exists] at hg
          obtain ⟨g, hg⟩ := hg
          exact ⟨n, g, rfl, rfl, hg⟩
        | null => simp at hra
        | bool b => simp at hra
        | str s => simp at hra
    | null => simp at hbody
    | bool b => simp at hbody
    | num n => simp at hbody
    | str s => simp at hbody
    | arr l => simp at hbody

theorem process429_eq (st : ClientState) (r : String) (a : Attempt)
    (fields : List (String × JPrim)) (n : Int) (g : JPrim)
    (hb : a.resp.body = some (JValue.obj fields))
    (hra : lookupKey fields "retry_after" = some (JPrim.num n))
    (hg : lookupKey fields "global" = some g) :
    process429 st r a
      = Except.ok
          ({ st with
             ratelimit_handler :=
               st.ratelimit_handler.set_limit
                 (if g.truthy then "global" else r) (a.now + n) },
           (if g.truthy then "global" else r), a.now + n) := by
  simp [process429, pySubscript, hb, hra, hg, pyAddTime]

theorem registerStep_snd (st : ClientState) (r : String) (res : Response) :
    (registerStep st r res).2 = []
    ∨ ∃ b, (registerStep st r res).2 = [Event.registerBucket r b] := by
  rcases h : lookupKey res.headers "X-RateLimit-Bucket" with _ | b
  · left
    simp [registerStep, h]
  · by_cases hk : st.ratelimit_handler.is_in_bucket_map r = true
    · left
      simp [registerStep, h, hk]
    · rw [Bool.not_eq_true] at hk
      right
      exact ⟨b, by simp [registerStep, h, hk]⟩

theorem send_request_wf429_step (m r : String) (d : Option JValue)
    (ec : Option Nat) (rae : Bool) (bu : Option String)
    (hd : Option (List (String × String))) (st : ClientState) (a : Attempt)
    (rest : List Attempt) (hwf : wellFormed429 a = true) :
    send_request m r d ec rae bu hd st (a :: rest)
      = ((send_request m r d ec rae bu hd (throttleStep r hd st a) rest).1,
         (send_request m r d ec rae bu hd (throttleStep r hd st a) rest).2.1,
         Event.check r
           :: Event.httpCall (_send_request st m r d (bu.getD API_URL) hd).2
           :: Event.setLimit (throttleKey r a) (throttleLimit a)
           :: (send_request m r d ec rae bu hd (throttleStep r hd st a) rest).2.2) := by
  obtain ⟨hs, fields, n, g, hb, hra, hg⟩ := wf429_spec a hwf
  have hp := process429_eq (mergeHeaders hd st) r a fields n g hb hra hg
  have hst : throttleStep r hd st a
      = { mergeHeaders hd st with
          ratelimit_handler :=
            (mergeHeaders hd st).ratelimit_handler.set_limit
              (if g.truthy then "global" else r) (a.now + n) } := by
    simp [throttleStep, hp]
  have hkey : throttleKey r a = (if g.truthy then "global" else r) := by
    simp [throttleKey, pySubscript, hb, hg]
  have hlim : throttleLimit a = a.now + n := by
    simp [throttleLimit, pySubscript, hb, hra]
  rw [send_request_cons_429 m r d ec rae bu hd st a rest _ _ _ hs hp,
      send_request_baseurl_eq m r d ec rae hd rest (some (bu.getD API_URL)) bu,
      hst, hkey, hlim]

/-- Claim C4: every request `send_request` hands to the transport is
immediately preceded by a `ratelimit_handler.check` of the request's
route, including the request of every transparent 429 retry: restricted to
governor checks and transport hand-offs, the trace of any run is a strict
alternation of check-then-call pairs, all checking the same route. -/
theorem c4_check_gates_every_call (m r : String) (d : Option JValue)
    (ec : Option Nat) (rae : Bool) :
    ∀ (oracle : List Attempt) (bu : Option String)
      (hd : Option (List (String × String))) (st : ClientState),
      gatedPairs r
        (((send_request m r d ec rae bu hd st oracle).2.2).filter Event.isGate)
        = true := by
  intro oracle
  induction oracle with
  | nil =>
    intro bu hd st
    rw [send_request_nil]
    simp [gatedPairs, Event.isGate]
  | cons a rest ih =>
    intro bu hd st
    by_cases hs : (a.resp.status == 429) = true
    · have hs' : a.resp.status = 429 := by simpa using hs
      cases hp : process429 (mergeHeaders hd st) r a with
      | error e =>
        rw [send_request_cons_429err m r d ec rae bu hd st a rest e hs' hp]
        simp [gatedPairs, Event.isGate]
      | ok v =>
        obtain ⟨st2, key, limit⟩ := v
        rw [send_request_cons_429 m r d ec rae bu hd st a rest st2 key limit
              hs' hp]
        simp [gatedPairs, Event.isGate, ih (some (bu.getD API_URL)) hd st2]
    · have hs' : (a.resp.status == 429) = false := by simpa using hs
      rw [send_request_cons_not429 m r d ec rae bu hd st a rest hs']
      rcases registerStep_snd (mergeHeaders hd st) r a.resp with h0 | ⟨b, h1⟩
      · simp [h0, gatedPairs, Event.isGate]
      · simp [h1, gatedPairs, Event.isGate]

theorem httpCall_shape (m r : String) (d : Option JValue) (ec : Option Nat)
    (rae : Bool) (hd : Option (List (String × String))) :
    ∀ (oracle : List Attempt) (bu : Option String) (st : ClientState)
      (req : Request),
      Event.httpCall req ∈ (send_request m r d ec rae bu hd st oracle).2.2 →
      req.method = m ∧ req.url = construct_url API_URL r ∧ req.data = d := by
  intro oracle
  induction oracle with
  | nil =>
    intro bu st req hmem
    rw [send_request_nil, _send_request_req] at hmem
    simp at hmem
    subst hmem
    exact ⟨rfl, rfl, rfl⟩
  | cons a rest ih =>
    intro bu st req hmem
    by_cases hs : (a.resp.status == 429) = true
    · have hs' : a.resp.status = 429 := by simpa using hs
      cases hp : process429 (mergeHeaders hd st) r a with
      | error e =>
        rw [send_request_cons_429err m r d ec rae bu hd st a rest e hs' hp,
            _send_request_req] at hmem
        simp at hmem
        subst hmem
        exact ⟨rfl, rfl, rfl⟩
      | ok v =>
        obtain ⟨st2, key, limit⟩ := v
        rw [send_request_cons_429 m r d ec rae bu hd st a rest st2 key limit
              hs' hp, _send_request_req] at hmem
        simp at hmem
        rcases hmem with h1 | h2
        · subst h1
          exact ⟨rfl, rfl, rfl⟩
        · exact ih (some (bu.getD API_URL)) st2 req h2
    · have hs' : (a.resp.status == 429) = false := by simpa using hs
      rw [send_request_cons_not429 m r d ec rae bu hd st a rest hs',
          _send_request_req] at hmem
      rcases registerStep_snd (mergeHeaders hd st) r a.resp with h0 | ⟨b, h1⟩
      · rw [h0] at hmem
        simp at hmem
        subst hmem
        exact ⟨rfl, rfl, rfl⟩
      · rw [h1] at hmem
        simp at hmem
        subst hmem
        exact ⟨rfl, rfl, rfl⟩

theorem send_request_throttle_front (m r : String) (d : Option JValue)
    (ec : Option Nat) (rae : Bool) (bu : Option String)
    (hd : Option (List (String × String))) (rest : List Attempt) :
    ∀ (ts : List Attempt), (∀ a ∈ ts, wellFormed429 a = true) →
      ∀ st : ClientState,
        (send_request m r d ec rae bu hd st (ts ++ rest)).1
          = (send_request m r d ec rae bu hd
              (ts.foldl (throttleStep r hd) st) rest).1 := by
  intro ts
  induction ts with
  | nil =>
    intro _ st
    simp
  | cons a ts ih =>
    intro hts st
    have hwf : wellFormed429 a = true := hts a (List.mem_cons_self a ts)
    have hrest : ∀ b ∈ ts, wellFormed429 b = true :=
      fun b hb => hts b (List.mem_cons_of_mem a hb)
    rw [List.cons_append,
        send_request_wf429_step m r d ec rae bu hd st a _ hwf]
    simpa using ih hrest (throttleStep r hd st a)

/-- Claim C1: when the transport answers a prefix of well-formed (§6-shaped)
429 throttle responses before the remaining oracle, `send_request` raises
no error on account of those 429s: the outcome of the whole call equals the
outcome of the same call run on the remaining oracle — the eventually
successful retry — from the throttled state, and every request handed to
the transport along the way carries the same method, the same URL built
from the route, and the same body. -/
theorem c1_throttle_absorbed (m r : String) (d : Option JValue)
    (ec : Option Nat) (rae : Bool) (bu : Option String)
    (hd : Option (List (String × String))) (st : ClientState)
    (ts rest : List Attempt) (hts : ∀ a ∈ ts, wellFormed429 a = true) :
    (send_request m r d ec rae bu hd st (ts ++ rest)).1
      = (send_request m r d ec rae bu hd
          (ts.foldl (throttleStep r hd) st) rest).1
    ∧ ∀ req,
        Event.httpCall req ∈ (send_request m r d ec rae bu hd st (ts ++ rest)).2.2 →
        req.method = m ∧ req.url = construct_url API_URL r ∧ req.data = d :=
  ⟨send_request_throttle_front m r d ec rae bu hd rest ts hts st,
   fun req hreq => httpCall_shape m r d ec rae hd (ts ++ rest) bu st req hreq⟩

/-- Witness for C1 at a concrete input: one §6-shaped 429 followed by a
200; the outcome of the whole call is the outcome of the run on the
success response from the throttled state. -/
theorem c1_throttle_absorbed_witness :
    (send_request "GET" "/users/123" none none true none none
        (DiscordClient.init "token") ([throttle429] ++ [ok200])).1
      = (send_request "GET" "/users/123" none none true none none
          ([throttle429].foldl (throttleStep "/users/123" none)
            (DiscordClient.init "token")) [ok200]).1 :=
  (c1_throttle_absorbed "GET" "/users/123" none none true none none
    (DiscordClient.init "token") [throttle429] [ok200] (by decide)).1

/-- Claim C2 is false of the code — the 429 retry is unbounded recursion.
Amended: for every n, when the transport answers n consecutive well-formed
429s, `send_request` has handed n + 1 requests to the transport, surfaced
no error and returned no value — the call is still in flight — so under a
server that answers 429 on every attempt the recursion grows without
bound and no retry cap or exhaustion error exists in the code. -/
theorem c2_amended_unbounded_retry (m r : String) (d : Option JValue)
    (ec : Option Nat) (rae : Bool) (bu : Option String)
    (hd : Option (List (String × String))) (a : Attempt)
    (hwf : wellFormed429 a = true) :
    ∀ (n : Nat) (st : ClientState),
      (send_request m r d ec rae bu hd st (List.replicate n a)).1
        = ReqOutcome.pending
      ∧ countHttpCalls
          ((send_request m r d ec rae bu hd st (List.replicate n a)).2.2)
          = n + 1 := by
  intro n
  induction n with
  | zero =>
    intro st
    rw [List.replicate_zero, send_request_nil]
    exact ⟨rfl, rfl⟩
  | succ k ih =>
    intro st
    rw [List.replicate_succ,
        send_request_wf429_step m r d ec rae bu hd st a _ hwf]
    obtain ⟨h1, h2⟩ := ih (throttleStep r hd st a)
    refine ⟨by simpa using h1, ?_⟩
    simp only [countHttpCalls, List.filter, Event.isHttpCall,
               List.length_cons] at h2 ⊢
    omega

/-- Witness for the amended C2 at a concrete input: three consecutive
throttles leave the call still in flight. -/
theorem c2_amended_unbounded_retry_witness :
    (send_request "POST" "/channels/9/messages" none none true none none
        (DiscordClient.init "token") (List.replicate 3 throttle429)).1
      = ReqOutcome.pending :=
  (c2_amended_unbounded_retry "POST" "/channels/9/messages" none none true
    none none throttle429 (by decide) 3 (DiscordClient.init "token")).1

/-- Counterexample to C2 as stated: after five consecutive 429 responses
this call has handed six requests to the transport, surfaced no error to
the caller, and is still awaiting the next response — no retry cap is
reached and no error is raised on exhaustion. -/
theorem c2_counterexample :
    (send_request "GET" "/guilds/5/bans/9" none none true none none
        (DiscordClient.init "token") (List.replicate 5 throttle429)).1
      = ReqOutcome.pending
    ∧ countHttpCalls
        ((send_request "GET" "/guilds/5/bans/9" none none true none none
            (DiscordClient.init "token") (List.replicate 5 throttle429)).2.2)
        = 6 :=
  ⟨rfl, rfl⟩

/-- Claim C5 is falsified by an empty body in the error branch (see the
counterexample); amended by restricting the error branch to responses
whose decoded body carries the advertised fields: for every call with
`raise_at_exc` true handling a non-429 response, (a) when the transport
failed or a specified `expected_code` differs from the status, and the
decoded body is a JSON object with `code` and `message` entries, a
`DiscordHTTPError` carrying those two values and the raw response is
raised; (b) when no error condition holds, the decoded body is returned,
an empty body yielding `None`. -/
theorem c5_amended_error_raising (m r : String) (d : Option JValue)
    (ec : Option Nat) (bu : Option String)
    (hd : Option (List (String × String))) (st : ClientState) (a : Attempt)
    (h429 : (a.resp.status == 429) = false) :
    (∀ fields c msg,
        errCond ec a.exc a.resp = true →
        a.resp.body = some (JValue.obj fields) →
        lookupKey fields "code" = some c →
        lookupKey fields "message" = some msg →
        (send_request m r d ec true bu hd st [a]).1
          = ReqOutcome.httpError c msg a.resp)
    ∧ (errCond ec a.exc a.resp = false →
        (send_request m r d ec true bu hd st [a]).1
          = ReqOutcome.ok a.resp.body) := by
  constructor
  · intro fields c msg herr hb hc hm
    rw [send_request_cons_not429 m r d ec true bu hd st a [] h429]
    simp [finishOutcome, herr, pySubscript, hb, hc, hm]
  · intro herr
    rw [send_request_cons_not429 m r d ec true bu hd st a [] h429]
    simp [finishOutcome, herr]

/-- Counterexample to C5 as stated: the transport failed (`exc` true,
status 500 against an expected 200) with an empty response body; instead
of the claimed `DiscordHTTPError`, the call escapes with the `TypeError`
from subscripting the `None` decoded body. -/
theorem c5_counterexample :
    (send_request "GET" "/users/123" none (some 200) true none none
        (DiscordClient.init "token") [emptyBody500]).1
      = ReqOutcome.pyExc PyExc.typeError := rfl

/-- Witness for the amended C5 at a concrete input: a failed round-trip
with a structured error body raises the structured error carrying the
body's code and message and the raw response. -/
theorem c5_amended_error_raising_witness :
    (send_request "DELETE" "/guilds/1" none (some 204) true none none
        (DiscordClient.init "token") [structuredError500]).1
      = ReqOutcome.httpError (JPrim.num 50035) (JPrim.str "invalid body")
          structuredError500.resp :=
  (c5_amended_error_raising "DELETE" "/guilds/1" none (some 204) none none
      (DiscordClient.init "token") structuredError500 (by decide)).1
    [("code", JPrim.num 50035), ("message", JPrim.str "invalid body")]
    (JPrim.num 50035) (JPrim.str "invalid body") (by decide) rfl rfl rfl

/-- Claim C9: with `raise_at_exc` true, a non-429 response with an empty
body that takes the error branch (transport failure, or status differing
from a specified `expected_code`) makes the error construction subscript
the `None` decoded body: the call neither returns normally nor raises the
structured `DiscordHTTPError` — it escapes with a `TypeError`. -/
theorem c9_empty_body_error_branch (m r : String) (d : Option JValue)
    (ec : Option Nat) (bu : Option String)
    (hd : Option (List (String × String))) (st : ClientState) (a : Attempt)
    (h429 : (a.resp.status == 429) = false) (hbody : a.resp.body = none)
    (herr : errCond ec a.exc a.resp = true) :
    (send_request m r d ec true bu hd st [a]).1
      = ReqOutcome.pyExc PyExc.typeError := by
  rw [send_request_cons_not429 m r d ec true bu hd st a [] h429]
  simp [finishOutcome, herr, pySubscript, hbody]

/-- Witness for C9 at a concrete input: an empty 204 body against an
expected 200 ends in the `TypeError`, not in a `DiscordHTTPError`. -/
theorem c9_empty_body_error_branch_witness :
    (send_request "GET" "/channels/42" none (some 200) true none none
        (DiscordClient.init "token") [emptyBody204]).1
      = ReqOutcome.pyExc PyExc.typeError :=
  c9_empty_body_error_branch "GET" "/channels/42" none (some 200) none none
    (DiscordClient.init "token") emptyBody204 (by decide) rfl (by decide)

/-- Claim C6: on a 429 response whose body carries a numeric `retry_after`
and a `global` flag, `send_request` calls `ratelimit_handler.set_limit`
with the key "global" when the flag is truthy and with the request's route
otherwise, and with the limit timestamp `time.time() + retry_after`. -/
theorem c6_set_limit_args (m r : String) (d : Option JValue)
    (ec : Option Nat) (rae : Bool) (bu : Option String)
    (hd : Option (List (String × String))) (st : ClientState) (a : Attempt)
    (rest : List Attempt) (fields : List (String × JPrim)) (n : Int)
    (g : JPrim) (hs : a.resp.status = 429)
    (hb : a.resp.body = some (JValue.obj fields))
    (hra : lookupKey fields "retry_after" = some (JPrim.num n))
    (hg : lookupKey fields "global" = some g) :
    Event.setLimit (if g.truthy then "global" else r) (a.now + n)
      ∈ (send_request m r d ec rae bu hd st (a :: rest)).2.2 := by
  have hp := process429_eq (mergeHeaders hd st) r a fields n g hb hra hg
  rw [send_request_cons_429 m r d ec rae bu hd st a rest _ _ _ hs hp]
  simp

/-- Witness for C6 at a concrete input: a 429 with `retry_after` 2 and a
truthy global flag, received at time 200, yields
`set_limit("global", 202)`. -/
theorem c6_set_limit_args_witness :
    Event.setLimit "global" 202
      ∈ (send_request "PATCH" "/users/77" none none true none none
          (DiscordClient.init "token") [globalThrottle429]).2.2 := by
  have h := c6_set_limit_args "PATCH" "/users/77" none none true none none
    (DiscordClient.init "token") globalThrottle429 []
    [("retry_after", JPrim.num 2), ("global", JPrim.bool true)] 2
    (JPrim.bool true) rfl rfl rfl rfl
  simpa [globalThrottle429, JPrim.truthy] using h

/-- Claim C7 is falsified by 429 responses, which return into the retry
before the registration lines are reached (see the counterexample);
amended to non-throttle responses: (a) a non-429 response carrying
`X-RateLimit-Bucket` for a route not yet in the bucket map registers that
route under that bucket id; (b) a route already in the map is never
re-registered; (c) a well-formed 429 response triggers no registration at
all, even when it carries the header. -/
theorem c7_amended_bucket_registration :
    (∀ (st : ClientState) (r : String) (res : Response) (b : String),
        lookupKey res.headers "X-RateLimit-Bucket" = some b →
        st.ratelimit_handler.is_in_bucket_map r = false →
        registerStep st r res
          = ({ st with
               ratelimit_handler :=
                 st.ratelimit_handler.register_bucket r b },
             [Event.registerBucket r b]))
    ∧ (∀ (st : ClientState) (r : String) (res : Response),
        st.ratelimit_handler.is_in_bucket_map r = true →
        (registerStep st r res).2 = [])
    ∧ (∀ (m r : String) (d : Option JValue) (ec : Option Nat) (rae : Bool)
         (bu : Option String) (hd : Option (List (String × String)))
         (st : ClientState) (a : Attempt),
        wellFormed429 a = true →
        ((send_request m r d ec rae bu hd st [a]).2.2).all
          (fun e => !e.isRegisterBucket) = true) := by
  refine ⟨?_, ?_, ?_⟩
  · intro st r res b hb hk
    simp [registerStep, hb, hk]
  · intro st r res hk
    cases hb : lookupKey res.headers "X-RateLimit-Bucket" with
    | none => simp [registerStep, hb]
    | some b => simp [registerStep, hb, hk]
  · intro m r d ec rae bu hd st a hwf
    rw [send_request_wf429_step m r d ec rae bu hd st a [] hwf,
        send_request_nil]
    simp [Event.isRegisterBucket]

/-- Counterexample to C7 as stated: this 429 response carries an
`X-RateLimit-Bucket` header and its route is unknown to the governor, yet
the whole run (throttle, then a clean 200) performs no `register_bucket`
call at all — the 429 branch retries before the registration step. -/
theorem c7_counterexample :
    ((send_request "GET" "/guilds/5/bans/9" none none true none none
        (DiscordClient.init "token")
        [throttleWithBucket429, bare200]).2.2).all
      (fun e => !e.isRegisterBucket) = true := rfl

/-- Witness for the amended C7 at a concrete input: a 200 response with a
bucket header for an unknown route registers the route under that
bucket. -/
theorem c7_amended_bucket_registration_witness :
    registerStep (DiscordClient.init "token") "/channels/77"
        bucketResponse200
      = ({ DiscordClient.init "token" with
           ratelimit_handler :=
             (DiscordClient.init "token").ratelimit_handler.register_bucket
               "/channels/77" "bkt42" },
         [Event.registerBucket "/channels/77" "bkt42"]) :=
  c7_amended_bucket_registration.1 (DiscordClient.init "token")
    "/channels/77" bucketResponse200 "bkt42" rfl rfl
